import Mathlib

/-!
Verification of `src/server.mjs` (airtable-wavespeed-server): a webhook relay
between an Airtable-like record store and a Wavespeed-like image-generation
provider.  The JavaScript source is shallowly embedded: JSON values are an
inductive `Json` with JavaScript truthiness, record fields are association
lists, and each Express handler becomes a pure function of the inbound request
plus an oracle describing the responses of the remote services; the function
returns the HTTP response together with the ordered trace of remote calls the
handler issued.
-/

namespace AirtableWavespeed

/-- JSON values as passed around by the server.  Numbers are modelled as `Rat`
(the source only stores and forwards numeric field values; it never computes
with them). -/
inductive Json where
  | null
  | bool (b : Bool)
  | num (q : Rat)
  | str (s : String)
  | arr (elems : List Json)
  | obj (entries : List (String × Json))

mutual

/-- Decidable equality of JSON values (written by hand: the deriving handler
does not support this nested inductive). -/
def Json.decEq : (a b : Json) → Decidable (a = b)
  | .null, .null => isTrue rfl
  | .bool a, .bool b =>
    if h : a = b then isTrue (by rw [h]) else isFalse (fun hh => h (by cases hh; rfl))
  | .num a, .num b =>
    if h : a = b then isTrue (by rw [h]) else isFalse (fun hh => h (by cases hh; rfl))
  | .str a, .str b =>
    if h : a = b then isTrue (by rw [h]) else isFalse (fun hh => h (by cases hh; rfl))
  | .arr xs, .arr ys =>
    match Json.decEqList xs ys with
    | isTrue h => isTrue (by rw [h])
    | isFalse h => isFalse (fun hh => h (by cases hh; rfl))
  | .obj xs, .obj ys =>
    match Json.decEqObj xs ys with
    | isTrue h => isTrue (by rw [h])
    | isFalse h => isFalse (fun hh => h (by cases hh; rfl))
  | .null, .bool _ => isFalse (fun h => Json.noConfusion h)
  | .null, .num _ => isFalse (fun h => Json.noConfusion h)
  | .null, .str _ => isFalse (fun h => Json.noConfusion h)
  | .null, .arr _ => isFalse (fun h => Json.noConfusion h)
  | .null, .obj _ => isFalse (fun h => Json.noConfusion h)
  | .bool _, .null => isFalse (fun h => Json.noConfusion h)
  | .bool _, .num _ => isFalse (fun h => Json.noConfusion h)
  | .bool _, .str _ => isFalse (fun h => Json.noConfusion h)
  | .bool _, .arr _ => isFalse (fun h => Json.noConfusion h)
  | .bool _, .obj _ => isFalse (fun h => Json.noConfusion h)
  | .num _, .null => isFalse (fun h => Json.noConfusion h)
  | .num _, .bool _ => isFalse (fun h => Json.noConfusion h)
  | .num _, .str _ => isFalse (fun h => Json.noConfusion h)
  | .num _, .arr _ => isFalse (fun h => Json.noConfusion h)
  | .num _, .obj _ => isFalse (fun h => Json.noConfusion h)
  | .str _, .null => isFalse (fun h => Json.noConfusion h)
  | .str _, .bool _ => isFalse (fun h => Json.noConfusion h)
  | .str _, .num _ => isFalse (fun h => Json.noConfusion h)
  | .str _, .arr _ => isFalse (fun h => Json.noConfusion h)
  | .str _, .obj _ => isFalse (fun h => Json.noConfusion h)
  | .arr _, .null => isFalse (fun h => Json.noConfusion h)
  | .arr _, .bool _ => isFalse (fun h => Json.noConfusion h)
  | .arr _, .num _ => isFalse (fun h => Json.noConfusion h)
  | .arr _, .str _ => isFalse (fun h => Json.noConfusion h)
  | .arr _, .obj _ => isFalse (fun h => Json.noConfusion h)
  | .obj _, .null => isFalse (fun h => Json.noConfusion h)
  | .obj _, .bool _ => isFalse (fun h => Json.noConfusion h)
  | .obj _, .num _ => isFalse (fun h => Json.noConfusion h)
  | .obj _, .str _ => isFalse (fun h => Json.noConfusion h)
  | .obj _, .arr _ => isFalse (fun h => Json.noConfusion h)

/-- Decidable equality of JSON arrays. -/
def Json.decEqList : (xs ys : List Json) → Decidable (xs = ys)
  | [], [] => isTrue rfl
  | x :: xs, y :: ys =>
    match Json.decEq x y, Json.decEqList xs ys with
    | isTrue h1, isTrue h2 => isTrue (by rw [h1, h2])
    | isFalse h1, _ => isFalse (fun hh => h1 (by cases hh; rfl))
    | _, isFalse h2 => isFalse (fun hh => h2 (by cases hh; rfl))
  | [], _ :: _ => isFalse (fun h => List.noConfusion h)
  | _ :: _, [] => isFalse (fun h => List.noConfusion h)

/-- Decidable equality of JSON objects (entry lists). -/
def Json.decEqObj : (xs ys : List (String × Json)) → Decidable (xs = ys)
  | [], [] => isTrue rfl
  | (k1, v1) :: xs, (k2, v2) :: ys =>
    match String.decEq k1 k2, Json.decEq v1 v2, Json.decEqObj xs ys with
    | isTrue h0, isTrue h1, isTrue h2 => isTrue (by rw [h0, h1, h2])
    | isFalse h0, _, _ => isFalse (fun hh => h0 (by cases hh; rfl))
    | _, isFalse h1, _ => isFalse (fun hh => h1 (by cases hh; rfl))
    | _, _, isFalse h2 => isFalse (fun hh => h2 (by cases hh; rfl))
  | [], _ :: _ => isFalse (fun h => List.noConfusion h)
  | _ :: _, [] => isFalse (fun h => List.noConfusion h)

end

instance : DecidableEq Json := Json.decEq

/-- JavaScript truthiness of a value ( `!!v` ).  Arrays and objects are always
truthy; `0`, `""`, `false`, `null`/`undefined` are falsy. -/
def truthy : Json → Bool
  | .null => false
  | .bool b => b
  | .num q => q != 0
  | .str s => s != ""
  | .arr _ => true
  | .obj _ => true

/-- Truthiness of a possibly-absent value (`undefined` is falsy). -/
def truthyO : Option Json → Bool
  | none => false
  | some v => truthy v

/-- The field set of an Airtable record, as returned by `getRecord`: a map from
field names to JSON values (absent key = `undefined`). -/
abbrev Fields := List (String × Json)

/-- `f["Name"]` : property read on the field object of a record. -/
def getField (f : Fields) (k : String) : Option Json :=
  (f.find? (fun kv => kv.1 == k)).map (fun kv => kv.2)

/-- `v.k` / `v?.k` : property read on an arbitrary JSON value; reading a
property of a non-object yields `undefined`. -/
def jsGetOpt : Json → String → Option Json
  | .obj kvs, k => (kvs.find? (fun kv => kv.1 == k)).map (fun kv => kv.2)
  | _, _ => none

/-- `v || dflt` : the value when truthy, otherwise the default
(source lines 95, 96, 99, 184, 185, 254). -/
def jsOr (v : Option Json) (dflt : Json) : Json :=
  match v with
  | some x => if truthy x then x else dflt
  | none => dflt

/-- `typeof v === "number" ? v : dflt` (source lines 97, 98, 101-102). -/
def numOr (v : Option Json) (dflt : Rat) : Json :=
  match v with
  | some (.num q) => .num q
  | _ => .num dflt

/-- `Array.isArray(att) && att[0]?.url` : the `url` property of the first
element of an attachment list, `undefined` when the value is not an array, the
array is empty, or the first element has no `url` (source lines 90, 121). -/
def firstAttUrl (att : Option Json) : Option Json :=
  match att with
  | some (.arr (a :: _)) => jsGetOpt a "url"
  | _ => none

/-- Process configuration (environment variables), with the literal table-name
defaults of source lines 15-16. -/
structure Config where
  publicBaseUrl : String := ""
  tableRecreator : String := "Pinterest Recreator"
  tablePoses : String := "Pose Variations"
  deriving DecidableEq

/-- The `metadata` object embedded in every job payload
(source lines 110-114, 144-148). -/
structure PayloadMeta where
  airtable_record_id : Json
  table : String
  mode : String
  deriving DecidableEq

/-- A Wavespeed job-submission payload.  Optional keys (`reference_image_url`,
`source_image_url`, `poses`) are `none` exactly when the source omits the key
(an `undefined`-valued key is omitted by JSON serialisation). -/
structure Payload where
  model : Option Json
  prompt : Json
  negative_prompt : Json
  cfg_scale : Json
  steps : Json
  sampler : Json
  face_lock : Bool
  reference_strength : Json
  pose_control : Bool
  lighting_control : Bool
  mode : String
  reference_image_url : Option Json := none
  source_image_url : Option Json := none
  poses : Option (List String) := none
  webhook_url : String
  metadata : PayloadMeta
  deriving DecidableEq

/-- `buildRecreatorPayload(recordId, f)` of source lines 86-116.  The
reference image URL is `refUrl || (Array.isArray(refAtt) && refAtt[0]?.url)
|| undefined`. -/
def buildRecreatorPayload (cfg : Config) (recordId : Json) (f : Fields) : Payload :=
  let refUrl := getField f "Reference Image URL"
  let reference_image_url : Option Json :=
    if truthyO refUrl then refUrl
    else if truthyO (firstAttUrl (getField f "Reference Image")) then
      firstAttUrl (getField f "Reference Image")
    else none
  { model := getField f "Model ID"
    prompt := jsOr (getField f "Prompt") (.str "")
    negative_prompt := jsOr (getField f "Negative Prompt") (.str "")
    cfg_scale := numOr (getField f "CFG") 8
    steps := numOr (getField f "Steps") 35
    sampler := jsOr (getField f "Sampler") (.str "DPM++ 2M Karras")
    face_lock := truthyO (getField f "Face Lock")
    reference_strength := numOr (getField f "Reference Strength") 0.85
    pose_control := truthyO (getField f "Pose Control")
    lighting_control := truthyO (getField f "Lighting Control")
    mode := "recreate"
    reference_image_url := reference_image_url
    webhook_url := cfg.publicBaseUrl ++ "/wavespeed/callback"
    metadata := { airtable_record_id := recordId
                  table := cfg.tableRecreator
                  mode := "recreate" } }

/-- Split a character list at newline characters (structural model of
JavaScript `s.split("\n")`, so that it evaluates by kernel reduction). -/
def splitNlChars : List Char → List (List Char)
  | [] => [[]]
  | c :: cs =>
    match splitNlChars cs, decide (c = '\n') with
    | rest, true => [] :: rest
    | [], false => [[c]]
    | r :: rs, false => (c :: r) :: rs

/-- `s.split("\n")`. -/
def jsSplitNl (s : String) : List String :=
  (splitNlChars s.data).map (fun l => String.mk l)

/-- Drop leading whitespace characters. -/
def dropLeadingWs : List Char → List Char
  | [] => []
  | c :: cs => if c.isWhitespace then dropLeadingWs cs else c :: cs

/-- `s.trim()`: drop leading and trailing whitespace (structural model of the
JavaScript string method). -/
def jsTrim (s : String) : String :=
  String.mk ((dropLeadingWs ((dropLeadingWs s.data).reverse)).reverse)

/-- `(f["Poses"] || "").split("\n").map(s => s.trim()).filter(Boolean)` of
source lines 123-126.  The source only ever feeds this a text field (a truthy
non-string value would make `.split` throw a TypeError; the model is used on
text or absent values only, matching the spec, which calls this a "newline-delimited text
field"). -/
def poseLinesOf (v : Option Json) : List String :=
  let text : String :=
    match jsOr v (.str "") with
    | .str s => s
    | _ => ""
  ((jsSplitNl text).map jsTrim).filter (fun x => x != "")

/-- `buildPosesPayload(recordId, f)` of source lines 118-155.  The
`source_image_url` and `poses` keys are added only when truthy / non-empty
(source lines 151-152). -/
def buildPosesPayload (cfg : Config) (recordId : Json) (f : Fields) : Payload :=
  let source_image_url : Option Json :=
    if truthyO (firstAttUrl (getField f "Source Image")) then
      firstAttUrl (getField f "Source Image")
    else none
  let poseLines := poseLinesOf (getField f "Poses")
  { model := getField f "Model ID"
    prompt := jsOr (getField f "Prompt") (.str "")
    negative_prompt := jsOr (getField f "Negative Prompt") (.str "")
    cfg_scale := numOr (getField f "CFG") 8
    steps := numOr (getField f "Steps") 35
    sampler := jsOr (getField f "Sampler") (.str "DPM++ 2M Karras")
    face_lock := truthyO (getField f "Face Lock")
    reference_strength := numOr (getField f "Reference Strength") 0.85
    pose_control := truthyO (getField f "Pose Control")
    lighting_control := truthyO (getField f "Lighting Control")
    mode := "pose_variations"
    source_image_url := source_image_url
    poses := if poseLines.isEmpty then none else some poseLines
    webhook_url := cfg.publicBaseUrl ++ "/wavespeed/callback"
    metadata := { airtable_record_id := recordId
                  table := cfg.tablePoses
                  mode := "pose_variations" } }

/-- One entry of the `images` array of a callback: `{url}` (the `url` property
may be absent). -/
structure CbImage where
  url : Option Json := none
  deriving DecidableEq

/-- The `metadata` object of a callback; each property may be absent
(`metadata?.airtable_record_id`, `metadata?.table` read them with optional
chaining, source lines 235-236). -/
structure CbMetadata where
  airtable_record_id : Option Json := none
  table : Option Json := none
  mode : Option Json := none
  deriving DecidableEq

/-- An inbound `/wavespeed/callback` body, source lines 227-234: destructured
as `{status, images = [], error, metadata}`. -/
structure CallbackBody where
  status : Option Json := none
  images : Option (List CbImage) := none
  error : Option Json := none
  metadata : Option CbMetadata := none
  deriving DecidableEq

/-- One `updateRecord(table, recordId, fields)` request (source lines 48-59).
The table and record id are whatever JSON values the handler passes (the
callback handler forwards metadata values unchecked). -/
structure UpdateCall where
  table : Json
  recordId : Json
  fields : Fields
  deriving DecidableEq

/-- Response of the store to an `updateRecord` call: `r.ok`, or a non-success
HTTP status together with the response body text. -/
inductive StoreResp where
  | ok (body : Json)
  | err (httpStatus : Nat) (text : String)
  deriving DecidableEq

/-- Response of the store to a `getRecord` call; on success the handler
destructures the `fields` property (source line 170). -/
inductive GetResp where
  | ok (fields : Fields)
  | err (httpStatus : Nat)
  deriving DecidableEq

/-- Response of the provider to `wavespeedCreateJob`: the parsed JSON body, or
a non-success status with body text (source lines 65-80). -/
inductive ProviderResp where
  | ok (body : Json)
  | err (httpStatus : Nat) (text : String)
  deriving DecidableEq

/-- An HTTP response sent by a handler: status code and JSON body. -/
structure HttpResponse where
  status : Nat
  body : Json
  deriving DecidableEq

/-- `{ok: true}`. -/
def okTrue : Json := .obj [("ok", .bool true)]

/-- `{error: msg}` as sent by the catch blocks (`res.status(...).json({error})`). -/
def errBody (msg : String) : Json := .obj [("error", .str msg)]

/-- Message of the error thrown by `updateRecord` on a non-success store
response (source line 56). -/
def updateErrMsg (httpStatus : Nat) (text : String) : String :=
  "Airtable updateRecord failed: " ++ toString httpStatus ++ " " ++ text

/-- Message of the error thrown by `getRecord` on a non-success store response
(source line 44). -/
def getErrMsg (httpStatus : Nat) : String :=
  "Airtable getRecord failed: " ++ toString httpStatus

/-- Message of the error thrown by `wavespeedCreateJob` on a non-success
provider response (source line 76). -/
def providerErrMsg (httpStatus : Nat) (text : String) : String :=
  "Wavespeed createJob failed: " ++ toString httpStatus ++ " " ++ text

/-- `images.map((img) => ({url: img.url}))` (source line 245); an entry whose
`url` is `undefined` serialises as `{}`. -/
def cbImageToAtt (img : CbImage) : Json :=
  match img.url with
  | some u => .obj [("url", u)]
  | none => .obj []

/-- The field patch of the `status === "succeeded"` branch
(source lines 246-250). -/
def succeededFields (images : List CbImage) : Fields :=
  [("Status", .str "done"),
   ("Output Images", .arr (images.map cbImageToAtt)),
   ("Error Message", .str "")]

/-- The field patch of the `status === "failed"` branch (source lines 252-255):
`Error Message` is `error || "Unknown Wavespeed error"`. -/
def failedFields (error : Option Json) : Fields :=
  [("Status", .str "error"),
   ("Error Message", jsOr error (.str "Unknown Wavespeed error"))]

/-- The `POST /wavespeed/callback` handler, source lines 225-263, as a function
of the behaviour of the store (`store` maps each `updateRecord` request to the
response of the store) and the inbound body.  Returns the HTTP response and the
ordered list of `updateRecord` calls issued.  A thrown store error is caught
by the catch block of the handler and answered with a 500 `{error}` response. -/
def wavespeedCallback (store : UpdateCall → StoreResp) (body : CallbackBody) :
    HttpResponse × List UpdateCall :=
  let recordId := body.metadata.bind (fun m => m.airtable_record_id)
  let table := body.metadata.bind (fun m => m.table)
  if !(truthyO recordId) || !(truthyO table) then
    (⟨200, okTrue⟩, [])
  else
    let rid := recordId.getD .null
    let tbl := table.getD .null
    if body.status = some (.str "succeeded") then
      let call : UpdateCall := ⟨tbl, rid, succeededFields (body.images.getD [])⟩
      match store call with
      | .ok _ => (⟨200, okTrue⟩, [call])
      | .err s t => (⟨500, errBody (updateErrMsg s t)⟩, [call])
    else if body.status = some (.str "failed") then
      let call : UpdateCall := ⟨tbl, rid, failedFields body.error⟩
      match store call with
      | .ok _ => (⟨200, okTrue⟩, [call])
      | .err s t => (⟨500, errBody (updateErrMsg s t)⟩, [call])
    else
      (⟨200, okTrue⟩, [])

/-- Responses of the remote services to the (at most four) remote calls a
start flow makes, in order: `getRecord`, the `Status=running` update, the
provider job submission, and the job/batch-id update. -/
structure StartOracle where
  getRec : GetResp
  updRunning : StoreResp
  createJob : ProviderResp
  updIds : StoreResp
  deriving DecidableEq

/-- One remote call issued by a start flow. -/
inductive RemoteCall where
  | getRec (table : String) (recordId : Json)
  | updRec (call : UpdateCall)
  | createJob (payload : Payload)
  deriving DecidableEq

/-- An inbound start-request body: `{recordId}` (source lines 165, 198). -/
structure StartRequest where
  recordId : Option Json := none
  deriving DecidableEq

/-- The `Status=running, Error Message=""` patch (source lines 173-176,
204-207). -/
def runningFields : Fields :=
  [("Status", .str "running"), ("Error Message", .str "")]

/-- The job/batch-identifier patch (source lines 183-186, 212-215):
`ws.job_id || ""` and `ws.batch_id || ""`. -/
def idFields (ws : Json) : Fields :=
  [("Wavespeed Job ID", jsOr (jsGetOpt ws "job_id") (.str "")),
   ("Batch ID", jsOr (jsGetOpt ws "batch_id") (.str ""))]

/-- The `POST /generate/recreator` handler, source lines 163-193, as a function
of the responses of the remote services.  Returns the HTTP response and the ordered
trace of remote calls issued; any thrown remote error is caught and answered
with 500 `{error}`. -/
def generateRecreator (cfg : Config) (oracle : StartOracle) (req : StartRequest) :
    HttpResponse × List RemoteCall :=
  if !(truthyO req.recordId) then
    (⟨400, errBody "recordId required"⟩, [])
  else
    let recordId := req.recordId.getD .null
    let c1 : RemoteCall := .getRec cfg.tableRecreator recordId
    match oracle.getRec with
    | .err s => (⟨500, errBody (getErrMsg s)⟩, [c1])
    | .ok fields =>
      let u1 : UpdateCall := ⟨.str cfg.tableRecreator, recordId, runningFields⟩
      match oracle.updRunning with
      | .err s t => (⟨500, errBody (updateErrMsg s t)⟩, [c1, .updRec u1])
      | .ok _ =>
        let payload := buildRecreatorPayload cfg recordId fields
        match oracle.createJob with
        | .err s t =>
          (⟨500, errBody (providerErrMsg s t)⟩, [c1, .updRec u1, .createJob payload])
        | .ok ws =>
          let u2 : UpdateCall := ⟨.str cfg.tableRecreator, recordId, idFields ws⟩
          match oracle.updIds with
          | .err s t =>
            (⟨500, errBody (updateErrMsg s t)⟩,
             [c1, .updRec u1, .createJob payload, .updRec u2])
          | .ok _ =>
            (⟨200, .obj [("ok", .bool true), ("job", ws)]⟩,
             [c1, .updRec u1, .createJob payload, .updRec u2])

/-- The `POST /generate/poses` handler, source lines 196-222, identical to the
recreator flow but against the poses table and payload builder. -/
def generatePoses (cfg : Config) (oracle : StartOracle) (req : StartRequest) :
    HttpResponse × List RemoteCall :=
  if !(truthyO req.recordId) then
    (⟨400, errBody "recordId required"⟩, [])
  else
    let recordId := req.recordId.getD .null
    let c1 : RemoteCall := .getRec cfg.tablePoses recordId
    match oracle.getRec with
    | .err s => (⟨500, errBody (getErrMsg s)⟩, [c1])
    | .ok fields =>
      let u1 : UpdateCall := ⟨.str cfg.tablePoses, recordId, runningFields⟩
      match oracle.updRunning with
      | .err s t => (⟨500, errBody (updateErrMsg s t)⟩, [c1, .updRec u1])
      | .ok _ =>
        let payload := buildPosesPayload cfg recordId fields
        match oracle.createJob with
        | .err s t =>
          (⟨500, errBody (providerErrMsg s t)⟩, [c1, .updRec u1, .createJob payload])
        | .ok ws =>
          let u2 : UpdateCall := ⟨.str cfg.tablePoses, recordId, idFields ws⟩
          match oracle.updIds with
          | .err s t =>
            (⟨500, errBody (updateErrMsg s t)⟩,
             [c1, .updRec u1, .createJob payload, .updRec u2])
          | .ok _ =>
            (⟨200, .obj [("ok", .bool true), ("job", ws)]⟩,
             [c1, .updRec u1, .createJob payload, .updRec u2])

/-- Abstract state of the record store: per (table, record id), the field values of the
record. -/
def StoreState : Type := Json → Json → String → Option Json

/-- Effect of one `updateRecord` call on the store: the named fields of the
target record are replaced, every other field and record is untouched
(Airtable PATCH semantics, spec section 4.1). -/
def applyCall (st : StoreState) (c : UpdateCall) : StoreState :=
  fun tbl rid fname =>
    if tbl = c.table ∧ rid = c.recordId then
      match c.fields.find? (fun kv => kv.1 == fname) with
      | some kv => some kv.2
      | none => st tbl rid fname
    else st tbl rid fname

/-- Effect of a sequence of `updateRecord` calls, applied in order. -/
def applyCalls (st : StoreState) (cs : List UpdateCall) : StoreState :=
  cs.foldl applyCall st

/-- The callback metadata object that results from echoing the `metadata` of a payload
verbatim (spec sections 4.3 and 9: the provider returns the
embedded `{airtable_record_id, table, mode}` unchanged). -/
def PayloadMeta.echo (m : PayloadMeta) : CbMetadata :=
  { airtable_record_id := some m.airtable_record_id
    table := some (.str m.table)
    mode := some (.str m.mode) }

/-- A store that answers every update with 503 Service Unavailable. -/
def cbStoreDown : UpdateCall → StoreResp := fun _ => .err 503 "Service Unavailable"

/-- A store that answers every update with success. -/
def cbStoreUp : UpdateCall → StoreResp := fun _ => .ok .null

/-- A store that answers every update with success (body `null`). -/
def storeNoop : UpdateCall → StoreResp := fun _ => .ok .null

/-- A well-formed succeeded callback for record `rec1` of the default recreator
table, carrying one output image. -/
def cbEnvPatchFails : CallbackBody :=
  { status := some (.str "succeeded")
    images := some [{ url := some (.str "https://img.example/1.png") }]
    metadata := some { airtable_record_id := some (.str "rec1")
                       table := some (.str "Pinterest Recreator")
                       mode := some (.str "recreate") } }

/-- A provider job-creation response carrying job and batch identifiers. -/
def wsRespEx : Json := .obj [("job_id", .str "job-9"), ("batch_id", .str "b-1")]

/-- Remote responses where everything succeeds except the final
job/batch-identifier patch, which the store rejects with 422 (as Airtable does
when the patch names a column that does not exist). -/
def idPatchFailOracle : StartOracle :=
  { getRec := .ok []
    updRunning := .ok .null
    createJob := .ok wsRespEx
    updIds := .err 422 "UNKNOWN_FIELD_NAME" }

/-- Remote responses where every remote call succeeds. -/
def quietOracle : StartOracle :=
  { getRec := .ok []
    updRunning := .ok .null
    createJob := .ok .null
    updIds := .ok .null }

/-- A record with an explicit reference-image URL field. -/
def fUrlEx : Fields := [("Reference Image URL", .str "https://example/explicit.png")]

/-- A record whose reference image is an attachment list. -/
def fAttEx : Fields :=
  [("Reference Image", .arr [.obj [("url", .str "https://example/att.png")]])]

/-- A record whose source image is an attachment list. -/
def fSrcEx : Fields :=
  [("Source Image", .arr [.obj [("url", .str "https://example/src.png")]])]

/-- A succeeded callback whose metadata is the verbatim echo of the metadata
embedded by the recreator payload builder for record `rec9`. -/
def cbEnvEchoEx : CallbackBody :=
  { status := some (.str "succeeded")
    images := some [{ url := some (.str "https://img.example/out.png") }]
    metadata := some ((buildRecreatorPayload {} (.str "rec9") []).metadata.echo) }

/-- The update call issued by the callback flow for `cbEnvEchoEx`. -/
def echoCallEx : UpdateCall :=
  ⟨.str "Pinterest Recreator", .str "rec9",
   succeededFields [{ url := some (.str "https://img.example/out.png") }]⟩

/-- An empty store state: every field of every record is unset. -/
def stEmpty : StoreState := fun _ _ _ => none

/-- A callback with valid metadata and the non-terminal status `running`. -/
def cbEnvRunning : CallbackBody :=
  { status := some (.str "running")
    metadata := some { airtable_record_id := some (.str "rec1")
                       table := some (.str "Pinterest Recreator")
                       mode := some (.str "recreate") } }

/-- On a text value, `poseLinesOf` is exactly split-trim-filter: the `|| ""`
fallback changes nothing because the fallback equals the only falsy string. -/
theorem poseLinesOf_str (s : String) :
    poseLinesOf (some (.str s)) = ((jsSplitNl s).map jsTrim).filter (fun x => x != "") := by
  by_cases h : s = ""
  · subst h; rfl
  · simp [poseLinesOf, jsOr, truthy, h]

/-- In every recreator flow, a job submission in the trace is strictly preceded
by the completed `Status=running` patch. -/
theorem recreator_order (cfg : Config) (oracle : StartOracle) (req : StartRequest) :
    ∀ p, RemoteCall.createJob p ∈ (generateRecreator cfg oracle req).2 →
      ∃ pre post,
        (generateRecreator cfg oracle req).2 =
          pre ++
            RemoteCall.updRec
              ⟨.str cfg.tableRecreator, req.recordId.getD .null, runningFields⟩ :: post ∧
        RemoteCall.createJob p ∈ post ∧ ∃ b, oracle.updRunning = StoreResp.ok b := by
  intro p hp
  obtain ⟨rid⟩ := req
  obtain ⟨g, u1, j, u2⟩ := oracle
  cases hr : truthyO rid with
  | false => simp [generateRecreator, hr] at hp
  | true =>
    cases g with
    | err s => simp [generateRecreator, hr] at hp
    | ok fields =>
      cases u1 with
      | err s t => simp [generateRecreator, hr] at hp
      | ok b =>
        cases j with
        | err s t =>
          simp [generateRecreator, hr] at hp
          refine ⟨[RemoteCall.getRec cfg.tableRecreator (rid.getD .null)],
            [RemoteCall.createJob (buildRecreatorPayload cfg (rid.getD .null) fields)],
            ?_, ?_, b, rfl⟩
          · simp [generateRecreator, hr]
          · simp [hp]
        | ok ws =>
          cases u2 with
          | err s t =>
            simp [generateRecreator, hr] at hp
            refine ⟨[RemoteCall.getRec cfg.tableRecreator (rid.getD .null)],
              [RemoteCall.createJob (buildRecreatorPayload cfg (rid.getD .null) fields),
               RemoteCall.updRec ⟨.str cfg.tableRecreator, rid.getD .null, idFields ws⟩],
              ?_, ?_, b, rfl⟩
            · simp [generateRecreator, hr]
            · simp [hp]
          | ok b2 =>
            simp [generateRecreator, hr] at hp
            refine ⟨[RemoteCall.getRec cfg.tableRecreator (rid.getD .null)],
              [RemoteCall.createJob (buildRecreatorPayload cfg (rid.getD .null) fields),
               RemoteCall.updRec ⟨.str cfg.tableRecreator, rid.getD .null, idFields ws⟩],
              ?_, ?_, b, rfl⟩
            · simp [generateRecreator, hr]
            · simp [hp]

/-- In every poses flow, a job submission in the trace is strictly preceded by
the completed `Status=running` patch. -/
theorem poses_order (cfg : Config) (oracle : StartOracle) (req : StartRequest) :
    ∀ p, RemoteCall.createJob p ∈ (generatePoses cfg oracle req).2 →
      ∃ pre post,
        (generatePoses cfg oracle req).2 =
          pre ++
            RemoteCall.updRec
              ⟨.str cfg.tablePoses, req.recordId.getD .null, runningFields⟩ :: post ∧
        RemoteCall.createJob p ∈ post ∧ ∃ b, oracle.updRunning = StoreResp.ok b := by
  intro p hp
  obtain ⟨rid⟩ := req
  obtain ⟨g, u1, j, u2⟩ := oracle
  cases hr : truthyO rid with
  | false => simp [generatePoses, hr] at hp
  | true =>
    cases g with
    | err s => simp [generatePoses, hr] at hp
    | ok fields =>
      cases u1 with
      | err s t => simp [generatePoses, hr] at hp
      | ok b =>
        cases j with
        | err s t =>
          simp [generatePoses, hr] at hp
          refine ⟨[RemoteCall.getRec cfg.tablePoses (rid.getD .null)],
            [RemoteCall.createJob (buildPosesPayload cfg (rid.getD .null) fields)],
            ?_, ?_, b, rfl⟩
          · simp [generatePoses, hr]
          · simp [hp]
        | ok ws =>
          cases u2 with
          | err s t =>
            simp [generatePoses, hr] at hp
            refine ⟨[RemoteCall.getRec cfg.tablePoses (rid.getD .null)],
              [RemoteCall.createJob (buildPosesPayload cfg (rid.getD .null) fields),
               RemoteCall.updRec ⟨.str cfg.tablePoses, rid.getD .null, idFields ws⟩],
              ?_, ?_, b, rfl⟩
            · simp [generatePoses, hr]
            · simp [hp]
          | ok b2 =>
            simp [generatePoses, hr] at hp
            refine ⟨[RemoteCall.getRec cfg.tablePoses (rid.getD .null)],
              [RemoteCall.createJob (buildPosesPayload cfg (rid.getD .null) fields),
               RemoteCall.updRec ⟨.str cfg.tablePoses, rid.getD .null, idFields ws⟩],
              ?_, ?_, b, rfl⟩
            · simp [generatePoses, hr]
            · simp [hp]

/-- Claim C1, counterexample: a callback whose metadata contains both a record
id and a table name, but whose store patch fails, is answered with 500, not
with 200 `{ok:true}` — the store failure is surfaced to the provider, refuting
the claim as stated. -/
theorem C1_counterexample :
    truthyO (cbEnvPatchFails.metadata.bind (fun m => m.airtable_record_id)) = true ∧
    truthyO (cbEnvPatchFails.metadata.bind (fun m => m.table)) = true ∧
    (wavespeedCallback cbStoreDown cbEnvPatchFails).1 ≠ HttpResponse.mk 200 okTrue := by
  decide

/-- Claim C1, amended: for every inbound callback whose metadata contains both
a truthy record id and a truthy table name, the handler responds 200
`{ok:true}` when the store patch (if any is issued) succeeds; when the issued
store patch fails, the failure is surfaced to the provider as a 500 `{error}`
response. -/
theorem C1_callback_ack (store : UpdateCall → StoreResp) (body : CallbackBody)
    (hid : truthyO (body.metadata.bind (fun m => m.airtable_record_id)) = true)
    (htb : truthyO (body.metadata.bind (fun m => m.table)) = true) :
    ((∀ c, ∃ b, store c = StoreResp.ok b) →
      (wavespeedCallback store body).1 = ⟨200, okTrue⟩) ∧
    (∀ c, c ∈ (wavespeedCallback store body).2 → ∀ s t, store c = StoreResp.err s t →
      (wavespeedCallback store body).1 = ⟨500, errBody (updateErrMsg s t)⟩) := by
  obtain ⟨st, im, er, md⟩ := body
  cases md with
  | none => simp [truthyO] at hid
  | some m =>
    obtain ⟨mid, mtb, mmode⟩ := m
    replace hid : truthyO mid = true := hid
    replace htb : truthyO mtb = true := htb
    constructor
    · intro hok
      by_cases hs1 : st = some (Json.str "succeeded")
      · obtain ⟨b, hb⟩ := hok ⟨mtb.getD .null, mid.getD .null, succeededFields (im.getD [])⟩
        simp [wavespeedCallback, hid, htb, hs1, hb]
      · by_cases hs2 : st = some (Json.str "failed")
        · obtain ⟨b, hb⟩ := hok ⟨mtb.getD .null, mid.getD .null, failedFields er⟩
          simp [wavespeedCallback, hid, htb, hs1, hs2, hb]
        · simp [wavespeedCallback, hid, htb, hs1, hs2]
    · intro c hc s t hct
      by_cases hs1 : st = some (Json.str "succeeded")
      · rcases hstore : store ⟨mtb.getD .null, mid.getD .null, succeededFields (im.getD [])⟩
          with b | ⟨s1, t1⟩
        all_goals simp [wavespeedCallback, hid, htb, hs1, hstore] at hc ⊢
        all_goals subst hc
        · rw [hstore] at hct; cases hct
        · rw [hstore] at hct
          injection hct with h1 h2
          subst h1; subst h2; rfl
      · by_cases hs2 : st = some (Json.str "failed")
        · rcases hstore : store ⟨mtb.getD .null, mid.getD .null, failedFields er⟩
            with b | ⟨s1, t1⟩
          all_goals simp [wavespeedCallback, hid, htb, hs1, hs2, hstore] at hc ⊢
          all_goals subst hc
          · rw [hstore] at hct; cases hct
          · rw [hstore] at hct
            injection hct with h1 h2
            subst h1; subst h2; rfl
        · simp [wavespeedCallback, hid, htb, hs1, hs2] at hc

/-- Claim C1, witness: the amended theorem applied to a concrete callback and
an always-succeeding store. -/
theorem C1_callback_ack_witness :
    (wavespeedCallback cbStoreUp cbEnvPatchFails).1 = ⟨200, okTrue⟩ :=
  (C1_callback_ack cbStoreUp cbEnvPatchFails (by decide) (by decide)).1
    (fun _ => ⟨.null, rfl⟩)

/-- Claim C2: contrary to the comment in the source (`safe if the columns do
not exist`), a failure of the final job/batch-identifier patch aborts the flow:
the thrown store error is caught and the caller receives 500 `{error}`, not
`{ok:true, job}` — in both start flows. -/
theorem C2_final_patch_aborts :
    (generateRecreator {} idPatchFailOracle { recordId := some (.str "rec1") }).1 =
      ⟨500, errBody (updateErrMsg 422 "UNKNOWN_FIELD_NAME")⟩ ∧
    (generateRecreator {} idPatchFailOracle { recordId := some (.str "rec1") }).1 ≠
      ⟨200, .obj [("ok", .bool true), ("job", wsRespEx)]⟩ ∧
    (generatePoses {} idPatchFailOracle { recordId := some (.str "rec1") }).1 =
      ⟨500, errBody (updateErrMsg 422 "UNKNOWN_FIELD_NAME")⟩ := by
  exact ⟨rfl, by decide, rfl⟩

/-- Claim C3: a start-request without a record id is answered 400
`{error:"recordId required"}` by both start endpoints, and no remote call at
all is issued. -/
theorem C3_missing_recordId (cfg : Config) (oracle : StartOracle) (req : StartRequest)
    (h : req.recordId = none) :
    generateRecreator cfg oracle req = (⟨400, errBody "recordId required"⟩, []) ∧
    generatePoses cfg oracle req = (⟨400, errBody "recordId required"⟩, []) := by
  obtain ⟨rid⟩ := req
  replace h : rid = none := h
  subst h
  exact ⟨rfl, rfl⟩

/-- Claim C3, witness: the empty request against both endpoints. -/
theorem C3_missing_recordId_witness :
    generateRecreator {} quietOracle {} = (⟨400, errBody "recordId required"⟩, []) ∧
    generatePoses {} quietOracle {} = (⟨400, errBody "recordId required"⟩, []) :=
  C3_missing_recordId {} quietOracle {} rfl

/-- Claim C4: in both start flows, whenever the provider job submission appears
in the remote-call trace, the `Status=running, Error Message=""` patch occurs
strictly earlier in the trace and has completed successfully. -/
theorem C4_running_before_submit (cfg : Config) (oracle : StartOracle) (req : StartRequest) :
    (∀ p, RemoteCall.createJob p ∈ (generateRecreator cfg oracle req).2 →
      ∃ pre post,
        (generateRecreator cfg oracle req).2 =
          pre ++
            RemoteCall.updRec
              ⟨.str cfg.tableRecreator, req.recordId.getD .null, runningFields⟩ :: post ∧
        RemoteCall.createJob p ∈ post ∧ ∃ b, oracle.updRunning = StoreResp.ok b) ∧
    (∀ p, RemoteCall.createJob p ∈ (generatePoses cfg oracle req).2 →
      ∃ pre post,
        (generatePoses cfg oracle req).2 =
          pre ++
            RemoteCall.updRec
              ⟨.str cfg.tablePoses, req.recordId.getD .null, runningFields⟩ :: post ∧
        RemoteCall.createJob p ∈ post ∧ ∃ b, oracle.updRunning = StoreResp.ok b) :=
  ⟨recreator_order cfg oracle req, poses_order cfg oracle req⟩

/-- Claim C4, witness: the recreator flow with all remote calls succeeding. -/
theorem C4_running_before_submit_witness :
    ∃ pre post,
      (generateRecreator {} quietOracle { recordId := some (.str "rec1") }).2 =
        pre ++
          RemoteCall.updRec
            ⟨.str ({} : Config).tableRecreator,
             (({ recordId := some (.str "rec1") } : StartRequest)).recordId.getD .null,
             runningFields⟩ :: post ∧
      RemoteCall.createJob (buildRecreatorPayload {} (.str "rec1") []) ∈ post ∧
      ∃ b, quietOracle.updRunning = StoreResp.ok b :=
  (C4_running_before_submit {} quietOracle { recordId := some (.str "rec1") }).1
    (buildRecreatorPayload {} (.str "rec1") [])
    (by exact .tail _ (.tail _ (.head _)))

/-- Claim C5: in the poses payload, the `Poses` text field is split on
newlines, each line trimmed, empty lines dropped (order preserved: the list is
a sublist of the trimmed lines); the `poses` key is omitted exactly when the
resulting list is empty; and the input `"A\nB\n\nC"` yields exactly
`["A", "B", "C"]`. -/
theorem C5_pose_list (cfg : Config) (rid : Json) (f : Fields) :
    (∀ s, getField f "Poses" = some (.str s) →
      ((buildPosesPayload cfg rid f).poses = none ↔
        ((jsSplitNl s).map jsTrim).filter (fun x => x != "") = []) ∧
      (∀ l, (buildPosesPayload cfg rid f).poses = some l →
        l = ((jsSplitNl s).map jsTrim).filter (fun x => x != "") ∧
        l.Sublist ((jsSplitNl s).map jsTrim) ∧ ∀ x ∈ l, x ≠ "")) ∧
    (buildPosesPayload {} (.str "rec123") [("Poses", .str "A\nB\n\nC")]).poses =
      some ["A", "B", "C"] := by
  constructor
  · intro s hs
    have hl : poseLinesOf (getField f "Poses") =
        ((jsSplitNl s).map jsTrim).filter (fun x => x != "") := by
      rw [hs, poseLinesOf_str]
    constructor
    · simp only [buildPosesPayload, hl]
      split
      · rename_i he
        simp_all [List.isEmpty_iff]
      · rename_i he
        simp_all [List.isEmpty_iff]
    · intro l hposes
      simp only [buildPosesPayload, hl] at hposes
      split at hposes
      · cases hposes
      · injection hposes with h1
        subst h1
        refine ⟨rfl, List.filter_sublist _, ?_⟩
        intro x hx
        have := List.of_mem_filter hx
        simpa using this
  · rfl

/-- Claim C5, witness: the quantified part of the claim instantiated at the
spec scenario `Poses = "A\nB\n\nC"`. -/
theorem C5_pose_list_witness :
    ((buildPosesPayload {} (.str "rec123") [("Poses", .str "A\nB\n\nC")]).poses = none ↔
      ((jsSplitNl "A\nB\n\nC").map jsTrim).filter (fun x => x != "") = []) ∧
    (∀ l,
      (buildPosesPayload {} (.str "rec123") [("Poses", .str "A\nB\n\nC")]).poses = some l →
      l = ((jsSplitNl "A\nB\n\nC").map jsTrim).filter (fun x => x != "") ∧
      l.Sublist ((jsSplitNl "A\nB\n\nC").map jsTrim) ∧ ∀ x ∈ l, x ≠ "") :=
  (C5_pose_list {} (.str "rec123") [("Poses", .str "A\nB\n\nC")]).1 "A\nB\n\nC" rfl

/-- Claim C6: the reference image URL of the recreator payload prefers the
explicit URL field, falls back to the URL of the first attachment, and is
omitted otherwise; the source image URL of the poses payload (which has no
explicit URL field) uses the URL of the first attachment or is omitted. -/
theorem C6_image_url (cfg : Config) (rid : Json) (f : Fields) :
    (truthyO (getField f "Reference Image URL") = true →
      (buildRecreatorPayload cfg rid f).reference_image_url =
        getField f "Reference Image URL") ∧
    (truthyO (getField f "Reference Image URL") = false →
      truthyO (firstAttUrl (getField f "Reference Image")) = true →
      (buildRecreatorPayload cfg rid f).reference_image_url =
        firstAttUrl (getField f "Reference Image")) ∧
    (truthyO (getField f "Reference Image URL") = false →
      truthyO (firstAttUrl (getField f "Reference Image")) = false →
      (buildRecreatorPayload cfg rid f).reference_image_url = none) ∧
    (truthyO (firstAttUrl (getField f "Source Image")) = true →
      (buildPosesPayload cfg rid f).source_image_url =
        firstAttUrl (getField f "Source Image")) ∧
    (truthyO (firstAttUrl (getField f "Source Image")) = false →
      (buildPosesPayload cfg rid f).source_image_url = none) := by
  refine ⟨fun h1 => ?_, fun h1 h2 => ?_, fun h1 h2 => ?_, fun h1 => ?_, fun h1 => ?_⟩
  · simp [buildRecreatorPayload, h1]
  · simp [buildRecreatorPayload, h1, h2]
  · simp [buildRecreatorPayload, h1, h2]
  · simp [buildPosesPayload, h1]
  · simp [buildPosesPayload, h1]

/-- Claim C6, witness: the three recreator resolution branches and the two
poses branches at concrete records. -/
theorem C6_image_url_witness :
    (buildRecreatorPayload {} (.str "r1") fUrlEx).reference_image_url =
      getField fUrlEx "Reference Image URL" ∧
    (buildRecreatorPayload {} (.str "r1") fAttEx).reference_image_url =
      firstAttUrl (getField fAttEx "Reference Image") ∧
    (buildRecreatorPayload {} (.str "r1") []).reference_image_url = none ∧
    (buildPosesPayload {} (.str "r1") fSrcEx).source_image_url =
      firstAttUrl (getField fSrcEx "Source Image") ∧
    (buildPosesPayload {} (.str "r1") []).source_image_url = none :=
  ⟨(C6_image_url {} (.str "r1") fUrlEx).1 (by decide),
   (C6_image_url {} (.str "r1") fAttEx).2.1 (by decide) (by decide),
   (C6_image_url {} (.str "r1") []).2.2.1 (by decide) (by decide),
   (C6_image_url {} (.str "r1") fSrcEx).2.2.2.1 (by decide),
   (C6_image_url {} (.str "r1") []).2.2.2.2 (by decide)⟩

/-- Claim C7: in both payload builders, unset tunable fields receive the
literal defaults (`DPM++ 2M Karras`, CFG 8, steps 35, reference strength
0.85), and the three boolean toggles are false whenever the field is absent or
falsy. -/
theorem C7_defaults (cfg : Config) (rid : Json) (f : Fields) :
    (getField f "Sampler" = none →
      (buildRecreatorPayload cfg rid f).sampler = .str "DPM++ 2M Karras" ∧
      (buildPosesPayload cfg rid f).sampler = .str "DPM++ 2M Karras") ∧
    (getField f "CFG" = none →
      (buildRecreatorPayload cfg rid f).cfg_scale = .num 8 ∧
      (buildPosesPayload cfg rid f).cfg_scale = .num 8) ∧
    (getField f "Steps" = none →
      (buildRecreatorPayload cfg rid f).steps = .num 35 ∧
      (buildPosesPayload cfg rid f).steps = .num 35) ∧
    (getField f "Reference Strength" = none →
      (buildRecreatorPayload cfg rid f).reference_strength = .num 0.85 ∧
      (buildPosesPayload cfg rid f).reference_strength = .num 0.85) ∧
    (truthyO (getField f "Face Lock") = false →
      (buildRecreatorPayload cfg rid f).face_lock = false ∧
      (buildPosesPayload cfg rid f).face_lock = false) ∧
    (truthyO (getField f "Pose Control") = false →
      (buildRecreatorPayload cfg rid f).pose_control = false ∧
      (buildPosesPayload cfg rid f).pose_control = false) ∧
    (truthyO (getField f "Lighting Control") = false →
      (buildRecreatorPayload cfg rid f).lighting_control = false ∧
      (buildPosesPayload cfg rid f).lighting_control = false) := by
  refine ⟨fun h => ⟨?_, ?_⟩, fun h => ⟨?_, ?_⟩, fun h => ⟨?_, ?_⟩, fun h => ⟨?_, ?_⟩,
    fun h => ⟨?_, ?_⟩, fun h => ⟨?_, ?_⟩, fun h => ⟨?_, ?_⟩⟩ <;>
    simp [buildRecreatorPayload, buildPosesPayload, h, jsOr, numOr]

/-- Claim C7, witness: every default on the empty record. -/
theorem C7_defaults_witness :
    ((buildRecreatorPayload {} (.str "r1") []).sampler = .str "DPM++ 2M Karras" ∧
      (buildPosesPayload {} (.str "r1") []).sampler = .str "DPM++ 2M Karras") ∧
    ((buildRecreatorPayload {} (.str "r1") []).cfg_scale = .num 8 ∧
      (buildPosesPayload {} (.str "r1") []).cfg_scale = .num 8) ∧
    ((buildRecreatorPayload {} (.str "r1") []).steps = .num 35 ∧
      (buildPosesPayload {} (.str "r1") []).steps = .num 35) ∧
    ((buildRecreatorPayload {} (.str "r1") []).reference_strength = .num 0.85 ∧
      (buildPosesPayload {} (.str "r1") []).reference_strength = .num 0.85) ∧
    ((buildRecreatorPayload {} (.str "r1") []).face_lock = false ∧
      (buildPosesPayload {} (.str "r1") []).face_lock = false) ∧
    ((buildRecreatorPayload {} (.str "r1") []).pose_control = false ∧
      (buildPosesPayload {} (.str "r1") []).pose_control = false) ∧
    ((buildRecreatorPayload {} (.str "r1") []).lighting_control = false ∧
      (buildPosesPayload {} (.str "r1") []).lighting_control = false) := by
  have h := C7_defaults {} (.str "r1") []
  exact ⟨h.1 rfl, h.2.1 rfl, h.2.2.1 rfl, h.2.2.2.1 rfl, h.2.2.2.2.1 rfl,
    h.2.2.2.2.2.1 rfl, h.2.2.2.2.2.2 rfl⟩

/-- Claim C8: if a callback echoes, verbatim, the metadata embedded by the
recreator payload builder for record `rid`, then every store update the
callback flow issues targets exactly the recreator table and `rid`, never any
other (table, record) pair. -/
theorem C8_roundtrip (cfg : Config) (store : UpdateCall → StoreResp) (rid : Json)
    (f : Fields) (body : CallbackBody)
    (hecho : body.metadata = some ((buildRecreatorPayload cfg rid f).metadata.echo)) :
    ∀ u ∈ (wavespeedCallback store body).2,
      u.table = .str cfg.tableRecreator ∧ u.recordId = rid := by
  intro u hu
  obtain ⟨sta, im, er, md⟩ := body
  replace hecho :
      md = some ⟨some rid, some (.str cfg.tableRecreator), some (.str "recreate")⟩ := hecho
  subst hecho
  cases htr : truthy rid with
  | false => simp [wavespeedCallback, truthyO, htr] at hu
  | true =>
    by_cases hs1 : sta = some (Json.str "succeeded")
    · rcases hstore : store ⟨.str cfg.tableRecreator, rid, succeededFields (im.getD [])⟩
        with b | ⟨s1, t1⟩ <;>
      · simp [wavespeedCallback, truthyO, htr, hs1, hstore] at hu
        cases htt : truthy (Json.str cfg.tableRecreator) with
        | false => simp [htt] at hu
        | true =>
          simp [htt] at hu
          subst hu
          exact ⟨rfl, rfl⟩
    · by_cases hs2 : sta = some (Json.str "failed")
      · rcases hstore : store ⟨.str cfg.tableRecreator, rid, failedFields er⟩
          with b | ⟨s1, t1⟩ <;>
        · simp [wavespeedCallback, truthyO, htr, hs1, hs2, hstore] at hu
          cases htt : truthy (Json.str cfg.tableRecreator) with
          | false => simp [htt] at hu
          | true =>
            simp [htt] at hu
            subst hu
            exact ⟨rfl, rfl⟩
      · simp [wavespeedCallback, truthyO, htr, hs1, hs2] at hu

/-- Claim C8, witness: a succeeded callback echoing the metadata of a concrete
recreator submission; the one update it issues targets the recreator table and
record `rec9`. -/
theorem C8_roundtrip_witness :
    echoCallEx.table = .str ({} : Config).tableRecreator ∧
    echoCallEx.recordId = .str "rec9" :=
  C8_roundtrip {} storeNoop (.str "rec9") [] cbEnvEchoEx rfl echoCallEx (by decide)

/-- Claim C9: a callback with valid metadata whose status is neither
`succeeded` nor `failed` issues no store update at all — applying its update
trace to any store state leaves the state unchanged — and is still answered
200 `{ok:true}`. -/
theorem C9_nonterminal (store : UpdateCall → StoreResp) (body : CallbackBody)
    (st : StoreState)
    (hid : truthyO (body.metadata.bind (fun m => m.airtable_record_id)) = true)
    (htb : truthyO (body.metadata.bind (fun m => m.table)) = true)
    (hs1 : body.status ≠ some (.str "succeeded"))
    (hs2 : body.status ≠ some (.str "failed")) :
    (wavespeedCallback store body).2 = [] ∧
    applyCalls st (wavespeedCallback store body).2 = st ∧
    (wavespeedCallback store body).1 = ⟨200, okTrue⟩ := by
  obtain ⟨sta, im, er, md⟩ := body
  cases md with
  | none => simp [truthyO] at hid
  | some m =>
    obtain ⟨mid, mtb, mmode⟩ := m
    replace hid : truthyO mid = true := hid
    replace htb : truthyO mtb = true := htb
    replace hs1 : sta ≠ some (Json.str "succeeded") := hs1
    replace hs2 : sta ≠ some (Json.str "failed") := hs2
    have h2 : (wavespeedCallback store ⟨sta, im, er, some ⟨mid, mtb, mmode⟩⟩).2 = [] := by
      simp [wavespeedCallback, hid, htb, hs1, hs2]
    exact ⟨h2, by rw [h2]; rfl, by simp [wavespeedCallback, hid, htb, hs1, hs2]⟩

/-- Claim C9, witness: a `running` callback with valid metadata against the
empty store state. -/
theorem C9_nonterminal_witness :
    (wavespeedCallback storeNoop cbEnvRunning).2 = [] ∧
    applyCalls stEmpty (wavespeedCallback storeNoop cbEnvRunning).2 = stEmpty ∧
    (wavespeedCallback storeNoop cbEnvRunning).1 = ⟨200, okTrue⟩ :=
  C9_nonterminal storeNoop cbEnvRunning stEmpty (by decide) (by decide) (by decide) (by decide)

/-- Claim C10: two callback envelopes that differ only in the `metadata.mode`
value produce, for every store, the same response and the same store-update
trace — the handler never consults `mode`. -/
theorem C10_mode_ignored (store : UpdateCall → StoreResp) (status error : Option Json)
    (images : Option (List CbImage)) (mid mtb m1 m2 : Option Json) :
    wavespeedCallback store ⟨status, images, error, some ⟨mid, mtb, m1⟩⟩ =
      wavespeedCallback store ⟨status, images, error, some ⟨mid, mtb, m2⟩⟩ := rfl

end AirtableWavespeed
